import Mathlib

/-!
Verification of the surls-backend URL shortener core: the cache-aside
redirect path (`app.py`) and the visit-counter reconciliation job
(`helpers.py`), shallowly embedded as pure Lean functions over explicit
database and cache states.
-/

namespace Surls

/-- A row of the `short_urls` table (`models.py`, class `ShortUrl`). -/
structure ShortUrlRow where
  id : Nat
  short_url : String
  long_url : String
  user_id : Option String
  visits : Nat
deriving Repr, DecidableEq

/-- A row of the `visits` table (`models.py`, class `Visit`). -/
structure VisitRow where
  short_url_id : Nat
  ip_address : String
  user_agent : String
  referrer : String
  country : Option String
  city : Option String
deriving Repr, DecidableEq

/-- The durable relational store: the two tables of `models.py`. -/
structure DB where
  short_urls : List ShortUrlRow
  visit_rows : List VisitRow
deriving Repr, DecidableEq

/-- Association-list lookup, first binding wins (Redis key lookup). -/
def assoc_get {α : Type} (l : List (String × α)) (k : String) : Option α :=
  (l.find? (fun p => p.1 == k)).map (fun p => p.2)

/-- Association-list update: overwrite the first binding of `k`, or append. -/
def assoc_set {α : Type} : List (String × α) → String → α → List (String × α)
  | [], k, v => [(k, v)]
  | p :: ps, k, v => if p.1 == k then (k, v) :: ps else p :: assoc_set ps k v

/-- The Redis cache state: the `short:<code>` keys (URL mappings) and the
`visits:<code>` keys (visit counters), kept as two association lists since
the two key prefixes are disjoint. -/
structure Cache where
  mapping : List (String × String)
  counter : List (String × Nat)
deriving Repr, DecidableEq

/-- `redis_client.get(f"short:.. ")`. -/
def redis_get_mapping (c : Cache) (code : String) : Option String :=
  assoc_get c.mapping code

/-- `redis_client.get(f"visits:.. ")`. -/
def redis_get_counter (c : Cache) (code : String) : Option Nat :=
  assoc_get c.counter code

/-- `redis_client.set(f"short:.. ", long_url)`. -/
def redis_set_mapping (c : Cache) (code lu : String) : Cache :=
  { c with mapping := assoc_set c.mapping code lu }

/-- `redis_client.set(f"visits:.. ", v)`. -/
def redis_set_counter (c : Cache) (code : String) (v : Nat) : Cache :=
  { c with counter := assoc_set c.counter code v }

/-- `redis_client.setnx(f"visits:.. ", v)`: set only if the key is absent. -/
def redis_setnx_counter (c : Cache) (code : String) (v : Nat) : Cache :=
  match assoc_get c.counter code with
  | some _ => c
  | none => { c with counter := assoc_set c.counter code v }

/-- `redis_client.incr(f"visits:.. ")`: absent keys count as 0. -/
def redis_incr_counter (c : Cache) (code : String) : Cache :=
  { c with counter := assoc_set c.counter code ((assoc_get c.counter code).getD 0 + 1) }

/-- `db.query(ShortUrl).filter(ShortUrl.short_url == code).first() is not None`. -/
def code_exists (db : DB) (code : String) : Bool :=
  db.short_urls.any (fun r => r.short_url == code)

/-- `db.query(ShortUrl).filter(ShortUrl.short_url == code).first()`. -/
def db_find (db : DB) (code : String) : Option ShortUrlRow :=
  db.short_urls.find? (fun r => r.short_url == code)

/-- The durable `visits` column of the mapping for `code`, if any. -/
def db_visits (db : DB) (code : String) : Option Nat :=
  (db_find db code).map (fun r => r.visits)

/-- Surrogate for the autoincrement primary key of `short_urls`. -/
def next_id (db : DB) : Nat :=
  (db.short_urls.map (fun r => r.id)).foldr Nat.max 0 + 1

/-- `short_url_generator` (`app.py` 193-198): draw 6-character candidates and
redraw while the candidate already exists in the store.  The Python loop's
successive `random.choice` draws are the `draws` list; the function returns
the first non-colliding draw, and `none` means the supplied draws were
exhausted with every candidate colliding — i.e. the loop is still running. -/
def short_url_generator (db : DB) : List String → Option String
  | [] => none
  | d :: ds => if code_exists db d then short_url_generator db ds else some d

/-- The request context of `redirect_to_long_url`: client IPs, headers and the
optional geo lookup result. -/
structure ClientCtx where
  xff_ip : String
  host_ip : String
  user_agent : String
  referrer : String
  country : Option String
  city : Option String
deriving Repr, DecidableEq

/-- A scheduled `update_visit_in_db` background task (`BackgroundTasks.add_task`). -/
structure VisitTask where
  short_url : String
  ip : String
  ua : String
  ref : String
  country : Option String
  city : Option String
deriving Repr, DecidableEq

/-- Whole-system state: durable store, Redis cache, cache availability
(`redis_client` usable and reachable), and the queue of scheduled
background visit-recording tasks. -/
structure Sys where
  db : DB
  cache : Cache
  cacheUp : Bool
  tasks : List VisitTask
deriving Repr, DecidableEq

/-- `shorten_url` (`app.py` 170-191): allocate a code, insert the mapping row
with `visits = 0`, commit, then (if the cache is usable) `set` the mapping key
and `setnx` the counter key.  Returns `none` when the generator is still
looping on collisions, otherwise the created row and the new state. -/
def shorten_url (url : String) (draws : List String) (s : Sys) :
    Option (ShortUrlRow × Sys) :=
  match short_url_generator s.db draws with
  | none => none
  | some code =>
    let row : ShortUrlRow := ⟨next_id s.db, code, url, none, 0⟩
    let db2 : DB := ⟨s.db.short_urls ++ [row], s.db.visit_rows⟩
    let cache2 : Cache :=
      if s.cacheUp then
        redis_setnx_counter (redis_set_mapping s.cache code url) code row.visits
      else s.cache
    some (row, ⟨db2, cache2, s.cacheUp, s.tasks⟩)

/-- `re.fullmatch(r"[A-Za-z0-9]\x7b6\x7d", code)` (`app.py` 202). -/
def valid_code_format (code : String) : Bool :=
  code.length == 6 && code.toList.all (fun ch => ch.isAlpha || ch.isDigit)

/-- The outcome of `redirect_to_long_url`: a 302 redirect, a 400 invalid-format
error, or a 404 not-found error. -/
inductive ResolveResult
  | redirect (long_url : String)
  | invalidFormat
  | notFound
deriving Repr, DecidableEq

/-- An observable cache / durable-store operation performed by the resolver;
used to state that the invalid-format path touches neither. -/
inductive Op
  | cacheGet (key : String)
  | cacheSet (key : String)
  | cacheIncr (key : String)
  | dbQuery (key : String)
deriving Repr, DecidableEq

/-- The cache-lookup step of the resolver (`app.py` 209-212): the cached
value when the cache is usable and the value is truthy (Python's
`if long_url:` treats the empty string as a miss), else `none`. -/
def cache_hit_value (s : Sys) (code : String) : Option String :=
  if s.cacheUp then
    match redis_get_mapping s.cache code with
    | some lu => if lu == "" then none else some lu
    | none => none
  else none

/-- `redirect_to_long_url` (`app.py` 200-251).  Validates the code format;
tries the cache (a value is a hit only when truthy, i.e. non-empty); on a hit
increments the counter and schedules the background visit task; on a miss
falls back to the store, repairs the cache (`set` mapping, `set` counter to
the durable visits, then `incr`), schedules the task and redirects.  When the
cache is down every cache step is skipped (the exception handlers of the
source).  Also returns the list of cache/store operations performed. -/
def redirect_to_long_url (code : String) (ctx : ClientCtx) (s : Sys) :
    ResolveResult × Sys × List Op :=
  if valid_code_format code then
    let pre : List Op := if s.cacheUp then [Op.cacheGet code] else []
    match cache_hit_value s code with
    | some lu =>
      let task : VisitTask :=
        ⟨code, ctx.xff_ip, ctx.user_agent, ctx.referrer, ctx.country, ctx.city⟩
      (ResolveResult.redirect lu,
       { s with cache := redis_incr_counter s.cache code,
                tasks := s.tasks ++ [task] },
       pre ++ [Op.cacheIncr code])
    | none =>
      match db_find s.db code with
      | none => (ResolveResult.notFound, s, pre ++ [Op.dbQuery code])
      | some r =>
        let cache2 : Cache :=
          if s.cacheUp then
            redis_incr_counter
              (redis_set_counter (redis_set_mapping s.cache code r.long_url)
                code r.visits) code
          else s.cache
        let post : List Op :=
          if s.cacheUp then [Op.cacheSet code, Op.cacheSet code, Op.cacheIncr code]
          else []
        let task : VisitTask :=
          ⟨code, ctx.host_ip, ctx.user_agent, ctx.referrer, ctx.country, ctx.city⟩
        (ResolveResult.redirect r.long_url,
         { s with cache := cache2, tasks := s.tasks ++ [task] },
         pre ++ [Op.dbQuery code] ++ post)
  else (ResolveResult.invalidFormat, s, [])

/-- Replace the first element satisfying `p` (the single ORM object returned
by `.first()` is the one mutated). -/
def replace_first {α : Type} (p : α → Bool) (f : α → α) : List α → List α
  | [] => []
  | a :: as => if p a then f a :: as else a :: replace_first p f as

/-- `update_visit_in_db` (`helpers.py` 11-24): if the code exists, increment
its durable `visits` and append one `Visit` row, committed together;
otherwise return with the store unchanged. -/
def update_visit_in_db (code ip ua ref : String) (country city : Option String)
    (db : DB) : DB :=
  match db_find db code with
  | none => db
  | some r =>
    ⟨replace_first (fun q => q.short_url == code)
        (fun q => { q with visits := q.visits + 1 }) db.short_urls,
     db.visit_rows ++ [⟨r.id, ip, ua, ref, country, city⟩]⟩

/-- Outcome of reading one `visits:<code>` key during the sync job: a Redis
error (caught by the per-item `except`), an absent key, or a value. -/
inductive CounterRead
  | err
  | absent
  | val (n : Nat)
deriving Repr, DecidableEq

/-- One iteration of the loop body of `sync_visits_to_db` on the session row:
on a readable, present counter differing from the durable value, assign it;
on an error or an absent key, leave the row alone. -/
def sync_step (read : String → CounterRead) (r : ShortUrlRow) : ShortUrlRow :=
  match read r.short_url with
  | CounterRead.err => r
  | CounterRead.absent => r
  | CounterRead.val n => if r.visits == n then r else { r with visits := n }

/-- Whether the loop body counted this row in `synced_count`. -/
def row_needs_sync (read : String → CounterRead) (r : ShortUrlRow) : Bool :=
  match read r.short_url with
  | CounterRead.val n => r.visits != n
  | _ => false

/-- `sync_visits_to_db` (`helpers.py` 61-104): walk every mapping, read its
cache counter (per-item errors are caught and skipped), assign differing
values on the session rows, and commit once at the end when anything changed;
a failing commit (`commitOk = false`) raises into the outer handler, which
rolls the whole session back.  The cache is never written. -/
def sync_visits_to_db (read : String → CounterRead) (commitOk : Bool) (db : DB) :
    DB :=
  let synced := (db.short_urls.filter (row_needs_sync read)).length
  if 0 < synced then
    if commitOk then ⟨db.short_urls.map (sync_step read), db.visit_rows⟩ else db
  else db

/-- Reading a counter key through the live cache: an unavailable cache raises
(`CounterRead.err`) on every key. -/
def cache_read_counter (c : Cache) (cacheUp : Bool) (code : String) :
    CounterRead :=
  if cacheUp then
    match redis_get_counter c code with
    | some n => CounterRead.val n
    | none => CounterRead.absent
  else CounterRead.err

/-- Reading a counter key when the keys in `faults` raise per-item Redis
errors (caught by the inner `except` of the loop). -/
def cache_read_counter_faulty (c : Cache) (faults : List String) (code : String) :
    CounterRead :=
  if faults.contains code then CounterRead.err
  else
    match redis_get_counter c code with
    | some n => CounterRead.val n
    | none => CounterRead.absent

/-- `scheduled_sync_visits_to_db` (`app.py` 304-316): one Reconciliation Job
pass over the live system with a successful commit; the cache is not written. -/
def scheduled_sync (s : Sys) : Sys :=
  { s with db := sync_visits_to_db (cache_read_counter s.cache s.cacheUp) true s.db }

/-- Evict the `short:<code>` mapping key from the cache (cache-cold setup). -/
def evict_mapping (code : String) (s : Sys) : Sys :=
  { s with cache := { s.cache with mapping := s.cache.mapping.filter (fun p => p.1 != code) } }

/-- Iterate `redirect_to_long_url` `n` times on the same code, threading the
state (the result and operation trace of each call are dropped). -/
def resolve_iter (code : String) (ctx : ClientCtx) : Nat → Sys → Sys
  | 0, s => s
  | Nat.succ n, s => resolve_iter code ctx n (redirect_to_long_url code ctx s).2.1

/-- Modelled from the spec: the "syntactically valid absolute URL" check that
`create` is specified to perform.  No such validation exists in `app.py`
(the request model `longUrl` types `url` as a plain `str`; the validating
`CreateShortUrl` schema of `schema.py` is unused): an absolute URL here has
an `http` or `https` scheme followed by a nonempty remainder and contains no
space. -/
def spec_valid_absolute_url (url : String) : Bool :=
  ((url.toList.take 7 == "http://".toList && 7 < url.length) ||
   (url.toList.take 8 == "https://".toList && 8 < url.length)) &&
  url.toList.all (fun ch => ch != ' ')

/-- An empty system with the cache up: fresh store, fresh cache, no tasks. -/
def empty_sys : Sys := ⟨⟨[], []⟩, ⟨[], []⟩, true, []⟩

/-- A fixed request context for concrete runs. -/
def ctx0 : ClientCtx := ⟨"1.2.3.4", "1.2.3.4", "agent", "referrer", none, none⟩

/-- A store holding one mapping with code `abc123` and durable visits 3,
whose cache has no mapping key but a counter key already at 10 (concurrent
increments accumulated since the miss). -/
def c4_sys : Sys :=
  ⟨⟨[⟨1, "abc123", "http://x", none, 3⟩], []⟩, ⟨[], [("abc123", 10)]⟩, true, []⟩

/-- A store holding one mapping with durable visits 0 whose cache counter
reads 5 (five unreconciled resolves). -/
def c3_sys : Sys :=
  ⟨⟨[⟨1, "abc123", "http://x", none, 0⟩], []⟩,
   ⟨[("abc123", "http://x")], [("abc123", 5)]⟩, true, []⟩

/-- Two mappings A (`aaaaaa`) and B (`bbbbbb`), both with durable visits 0. -/
def c5_db : DB :=
  ⟨[⟨1, "aaaaaa", "http://a", none, 0⟩, ⟨2, "bbbbbb", "http://b", none, 0⟩], []⟩

/-- Cache counters 3 for A and 5 for B, both differing from the durable 0. -/
def c5_cache : Cache := ⟨[], [("aaaaaa", 3), ("bbbbbb", 5)]⟩

/-- A store already containing the code `aaaaaa`, so that drawing `aaaaaa`
always collides. -/
def c6_db : DB := ⟨[⟨1, "aaaaaa", "http://a", none, 0⟩], []⟩

/-- The row created by `shorten_url "not a url"` on the empty system. -/
def c7_row : ShortUrlRow := ⟨1, "abc123", "not a url", none, 0⟩

/-- The system state after `shorten_url "not a url" ["abc123"] empty_sys`. -/
def c7_sys : Sys :=
  ⟨⟨[c7_row], []⟩, ⟨[("abc123", "not a url")], [("abc123", 0)]⟩, true, []⟩

/-- The row created by `shorten_url "http://x" ["abc123"] empty_sys`. -/
def c2_row : ShortUrlRow := ⟨1, "abc123", "http://x", none, 0⟩

/-- The system state after `shorten_url "http://x" ["abc123"] empty_sys`. -/
def c2_sys : Sys :=
  ⟨⟨[c2_row], []⟩, ⟨[("abc123", "http://x")], [("abc123", 0)]⟩, true, []⟩

/-- A one-row store for the background-recording witness. -/
def c10_db : DB := ⟨[⟨7, "abc123", "http://x", none, 4⟩], []⟩

/-- A system with one existing mapping and the cache down. -/
def c9_sys : Sys :=
  ⟨⟨[⟨1, "dddddd", "http://d", none, 2⟩], []⟩, ⟨[], []⟩, false, []⟩

/-- The row created by `shorten_url "http://c" ["cccccc"] c9_sys`. -/
def c9_row : ShortUrlRow := ⟨2, "cccccc", "http://c", none, 0⟩

/-- The system state after `shorten_url "http://c" ["cccccc"] c9_sys`. -/
def c9_sys2 : Sys :=
  ⟨⟨[⟨1, "dddddd", "http://d", none, 2⟩, c9_row], []⟩, ⟨[], []⟩, false, []⟩

/-!  Helper lemmas about the association lists and list traversals. -/

theorem assoc_get_set_self {α : Type} (l : List (String × α)) (k : String) (v : α) :
    assoc_get (assoc_set l k v) k = some v := by
  induction l with
  | nil => simp [assoc_get, assoc_set]
  | cons p ps ih =>
    cases hb : (p.1 == k) with
    | true => simp [assoc_set, hb, assoc_get]
    | false => simpa [assoc_set, hb, assoc_get] using ih

theorem assoc_get_filter_ne {α : Type} (l : List (String × α)) (k : String) :
    assoc_get (l.filter (fun p => p.1 != k)) k = none := by
  induction l with
  | nil => rfl
  | cons p ps ih =>
    cases hb : (p.1 == k) with
    | true =>
      have heq : p.1 = k := by simpa using hb
      simp only [List.filter_cons, heq]
      simp only [bne_self_eq_false, Bool.false_eq_true, if_false]
      exact ih
    | false =>
      have hbne : (p.1 != k) = true := by simp [bne, hb]
      simp only [List.filter_cons, hbne, if_true]
      unfold assoc_get at ih ⊢
      rw [List.find?_cons_of_neg]
      · exact ih
      · simp [hb]

theorem short_url_generator_spec (db : DB) :
    ∀ (draws : List String) (c : String),
      short_url_generator db draws = some c →
      c ∈ draws ∧ code_exists db c = false := by
  intro draws
  induction draws with
  | nil => intro c h; simp [short_url_generator] at h
  | cons d ds ih =>
    intro c h
    cases hd : code_exists db d with
    | true =>
      rw [short_url_generator, hd] at h
      simp at h
      rcases ih c h with ⟨hmem, hfree⟩
      exact ⟨List.mem_cons_of_mem d hmem, hfree⟩
    | false =>
      rw [short_url_generator, hd] at h
      simp at h
      subst h
      exact ⟨List.mem_cons_self d ds, hd⟩

theorem short_url_generator_all_collide (db : DB) :
    ∀ draws : List String, (∀ d ∈ draws, code_exists db d = true) →
      short_url_generator db draws = none := by
  intro draws
  induction draws with
  | nil => intro _; rfl
  | cons d ds ih =>
    intro h
    rw [short_url_generator, h d (List.mem_cons_self d ds)]
    exact ih (fun x hx => h x (List.mem_cons_of_mem d hx))

theorem find?_append_fresh {α : Type} (p : α → Bool) (x : α) (hx : p x = true) :
    ∀ l : List α, l.any p = false → (l ++ [x]).find? p = some x := by
  intro l
  induction l with
  | nil => intro _; simp [List.find?, hx]
  | cons a as ih =>
    intro h
    rw [List.any_cons] at h
    have ha : p a = false := by
      cases hb : p a with
      | true => rw [hb] at h; simp at h
      | false => rfl
    have has : as.any p = false := by
      cases hb : as.any p with
      | true => rw [hb] at h; simp at h
      | false => rfl
    simpa [List.find?_cons, ha] using ih has

theorem find?_map_pres {α : Type} (f : α → α) (p : α → Bool)
    (hf : ∀ a, p (f a) = p a) :
    ∀ l : List α, (l.map f).find? p = (l.find? p).map f := by
  intro l
  induction l with
  | nil => rfl
  | cons a as ih =>
    cases hb : p a with
    | true => simp [List.find?_cons, hf, hb]
    | false => simp [List.find?_cons, hf, hb, ih]

theorem find?_replace_first_self {α : Type} (p : α → Bool) (f : α → α)
    (hf : ∀ a, p (f a) = p a) :
    ∀ l : List α, (replace_first p f l).find? p = (l.find? p).map f := by
  intro l
  induction l with
  | nil => rfl
  | cons a as ih =>
    cases hb : p a with
    | true => simp [replace_first, hb, List.find?_cons, hf]
    | false => simp [replace_first, hb, List.find?_cons, ih]

theorem find?_replace_first_other {α : Type} (p q : α → Bool) (f : α → α)
    (hpq : ∀ a, p a = true → q a = false) (hq : ∀ a, q (f a) = q a) :
    ∀ l : List α, (replace_first p f l).find? q = l.find? q := by
  intro l
  induction l with
  | nil => rfl
  | cons a as ih =>
    cases hb : p a with
    | true => simp [replace_first, hb, List.find?_cons, hq, hpq a hb]
    | false =>
      cases hc : q a with
      | true => simp [replace_first, hb, List.find?_cons, hc]
      | false => simp [replace_first, hb, List.find?_cons, hc, ih]

theorem sync_step_short_url (read : String → CounterRead) (r : ShortUrlRow) :
    (sync_step read r).short_url = r.short_url := by
  cases h : read r.short_url with
  | err => simp [sync_step, h]
  | absent => simp [sync_step, h]
  | val n =>
    simp only [sync_step, h]
    split <;> rfl

/-- A found row whose counter reads back a value ends the (successfully
committing) sync pass with that value as its durable `visits`, whether it
needed syncing or not. -/
theorem sync_db_visits_val (read : String → CounterRead) (db : DB) (code : String)
    (r : ShortUrlRow) (n : Nat)
    (h_find : db_find db code = some r)
    (h_read : read code = CounterRead.val n) :
    db_visits (sync_visits_to_db read true db) code = some n := by
  have hcode : r.short_url = code := by
    have := List.find?_some h_find
    simpa using this
  have h_read_r : read r.short_url = CounterRead.val n := by rw [hcode, h_read]
  have hpres : ∀ a, ((sync_step read a).short_url == code) = (a.short_url == code) := by
    intro a; rw [sync_step_short_url]
  unfold sync_visits_to_db
  by_cases hs : 0 < (db.short_urls.filter (row_needs_sync read)).length
  · simp only [hs, if_true]
    unfold db_visits db_find
    rw [find?_map_pres (sync_step read) _ hpres]
    unfold db_find at h_find
    rw [h_find]
    simp only [Option.map_map, Option.map_some]
    have : (sync_step read r).visits = n := by
      simp only [sync_step, h_read_r]
      split
      · next h => simpa using h
      · rfl
    simp [Function.comp, this]
  · simp only [hs, if_false]
    have hrmem : r ∈ db.short_urls := List.mem_of_find?_eq_some h_find
    have hfix : r.visits = n := by
      by_contra hne
      have hneed : row_needs_sync read r = true := by
        simp [row_needs_sync, h_read_r, hne]
      have : r ∈ db.short_urls.filter (row_needs_sync read) :=
        List.mem_filter.mpr ⟨hrmem, hneed⟩
      exact hs (List.length_pos.mpr (List.ne_nil_of_mem this))
    unfold db_visits
    rw [h_find]
    simp [hfix]

/-- A found row on which the loop body is the identity keeps its durable
`visits` across a sync pass, for either commit outcome. -/
theorem sync_db_visits_fix (read : String → CounterRead) (commitOk : Bool)
    (db : DB) (code : String) (r : ShortUrlRow)
    (h_find : db_find db code = some r)
    (h_step : sync_step read r = r) :
    db_visits (sync_visits_to_db read commitOk db) code = some r.visits := by
  have hpres : ∀ a, ((sync_step read a).short_url == code) = (a.short_url == code) := by
    intro a; rw [sync_step_short_url]
  unfold sync_visits_to_db
  by_cases hs : 0 < (db.short_urls.filter (row_needs_sync read)).length
  · simp only [hs, if_true]
    cases commitOk with
    | false => simp [db_visits, h_find]
    | true =>
      simp only [if_true]
      unfold db_visits db_find
      rw [find?_map_pres (sync_step read) _ hpres]
      unfold db_find at h_find
      rw [h_find]
      simp [h_step]
  · simp only [hs, if_false]
    simp [db_visits, h_find]

/-- A sync pass whose single batched commit fails leaves the durable store
entirely unchanged (the outer handler rolls the session back). -/
theorem sync_commit_failure (read : String → CounterRead) (db : DB) :
    sync_visits_to_db read false db = db := by
  unfold sync_visits_to_db
  by_cases hs : 0 < (db.short_urls.filter (row_needs_sync read)).length <;> simp [hs]

theorem get_mapping_set_self (c : Cache) (code url : String) :
    redis_get_mapping (redis_set_mapping c code url) code = some url := by
  unfold redis_get_mapping redis_set_mapping
  exact assoc_get_set_self c.mapping code url

theorem get_mapping_setnx (c : Cache) (code k : String) (v : Nat) :
    redis_get_mapping (redis_setnx_counter c k v) code = redis_get_mapping c code := by
  unfold redis_setnx_counter redis_get_mapping
  cases assoc_get c.counter k <;> rfl

theorem get_mapping_incr (c : Cache) (code k : String) :
    redis_get_mapping (redis_incr_counter c k) code = redis_get_mapping c code := rfl

theorem get_counter_setnx_absent (c : Cache) (k : String) (v : Nat)
    (h : redis_get_counter c k = none) :
    redis_get_counter (redis_setnx_counter c k v) k = some v := by
  unfold redis_get_counter at h
  unfold redis_setnx_counter redis_get_counter
  rw [h]
  exact assoc_get_set_self c.counter k v

theorem get_counter_set_mapping (c : Cache) (code k url : String) :
    redis_get_counter (redis_set_mapping c k url) code = redis_get_counter c code := rfl

theorem get_counter_set_self (c : Cache) (k : String) (v : Nat) :
    redis_get_counter (redis_set_counter c k v) k = some v := by
  unfold redis_get_counter redis_set_counter
  exact assoc_get_set_self c.counter k v

theorem get_counter_incr_self (c : Cache) (k : String) (n : Nat)
    (h : redis_get_counter c k = some n) :
    redis_get_counter (redis_incr_counter c k) k = some (n + 1) := by
  unfold redis_get_counter at h
  unfold redis_incr_counter redis_get_counter
  rw [h]
  simpa using assoc_get_set_self c.counter k (n + 1)

/-- Unpacking a successful `shorten_url` call: the returned row carries the
given URL and zero visits under a code that is fresh for the store and one of
the draws; the store gains exactly that row; the cache gains the mapping key
and (via `setnx`) the counter key when the cache is up. -/
theorem shorten_url_spec (url : String) (draws : List String) (s : Sys)
    (row : ShortUrlRow) (s₂ : Sys)
    (h : shorten_url url draws s = some (row, s₂)) :
    row.long_url = url ∧ row.visits = 0 ∧
    code_exists s.db row.short_url = false ∧
    row.short_url ∈ draws ∧
    s₂.db = ⟨s.db.short_urls ++ [row], s.db.visit_rows⟩ ∧
    s₂.cacheUp = s.cacheUp ∧
    s₂.tasks = s.tasks ∧
    s₂.cache = (if s.cacheUp then
        redis_setnx_counter (redis_set_mapping s.cache row.short_url url)
          row.short_url 0
      else s.cache) := by
  unfold shorten_url at h
  cases hgen : short_url_generator s.db draws with
  | none => rw [hgen] at h; exact absurd h (by simp)
  | some code =>
    rw [hgen] at h
    simp only [Option.some.injEq, Prod.mk.injEq] at h
    obtain ⟨hrow, hs2⟩ := h
    have hspec := short_url_generator_spec s.db draws code hgen
    subst hrow
    subst hs2
    exact ⟨rfl, rfl, hspec.2, hspec.1, rfl, rfl, rfl, rfl⟩

/-- The cache-hit path of the resolver (`app.py` 209-223), in full. -/
theorem redirect_warm_hit (code : String) (ctx : ClientCtx) (s : Sys) (url : String)
    (h_fmt : valid_code_format code = true)
    (h_up : s.cacheUp = true)
    (h_map : redis_get_mapping s.cache code = some url)
    (h_ne : url ≠ "") :
    redirect_to_long_url code ctx s =
      (ResolveResult.redirect url,
       { s with cache := redis_incr_counter s.cache code,
                tasks := s.tasks ++
                  [⟨code, ctx.xff_ip, ctx.user_agent, ctx.referrer,
                    ctx.country, ctx.city⟩] },
       [Op.cacheGet code, Op.cacheIncr code]) := by
  have hhit : cache_hit_value s code = some url := by
    simp [cache_hit_value, h_up, h_map, h_ne]
  simp [redirect_to_long_url, h_fmt, hhit, h_up]

/-- The cache-miss / cache-down path of the resolver on an existing code
(`app.py` 227-251), in full. -/
theorem redirect_miss_found (code : String) (ctx : ClientCtx) (s : Sys)
    (r : ShortUrlRow)
    (h_fmt : valid_code_format code = true)
    (h_hit : cache_hit_value s code = none)
    (h_find : db_find s.db code = some r) :
    (redirect_to_long_url code ctx s).1 = ResolveResult.redirect r.long_url ∧
    (redirect_to_long_url code ctx s).2.1 =
      { s with
        cache := if s.cacheUp then
            redis_incr_counter
              (redis_set_counter (redis_set_mapping s.cache code r.long_url)
                code r.visits) code
          else s.cache,
        tasks := s.tasks ++
          [⟨code, ctx.host_ip, ctx.user_agent, ctx.referrer,
            ctx.country, ctx.city⟩] } := by
  constructor <;> simp [redirect_to_long_url, h_fmt, h_hit, h_find]

/-- C1: for every long URL, `create` followed by `resolve` on the returned
code yields a redirect to the original URL, both on the state `create` left
behind (cache-warm when the cache is up) and after the mapping cache entry
has been evicted (cache-cold, resolved from the Durable Store). -/
theorem create_then_resolve_roundtrip
    (url : String) (draws : List String) (s : Sys) (ctx : ClientCtx)
    (row : ShortUrlRow) (s₂ : Sys)
    (h_draws : ∀ d, d ∈ draws → valid_code_format d = true)
    (h_create : shorten_url url draws s = some (row, s₂)) :
    (redirect_to_long_url row.short_url ctx s₂).1 = ResolveResult.redirect url ∧
    (redirect_to_long_url row.short_url ctx (evict_mapping row.short_url s₂)).1 =
      ResolveResult.redirect url := by
  obtain ⟨hurl, hv0, hfresh, hmem, hdb, hup, htasks, hcache⟩ :=
    shorten_url_spec url draws s row s₂ h_create
  have h_fmt : valid_code_format row.short_url = true := h_draws _ hmem
  have h_dbfind : db_find s₂.db row.short_url = some row := by
    rw [hdb]
    unfold db_find
    exact find?_append_fresh _ row (by simp) s.db.short_urls hfresh
  constructor
  · cases hcup : s.cacheUp with
    | false =>
      have h_hit : cache_hit_value s₂ row.short_url = none := by
        simp [cache_hit_value, hup, hcup]
      have h := redirect_miss_found row.short_url ctx s₂ row h_fmt h_hit h_dbfind
      rw [h.1, hurl]
    | true =>
      have hmap : redis_get_mapping s₂.cache row.short_url = some url := by
        rw [hcache]
        simp only [hcup, if_true]
        rw [get_mapping_setnx, get_mapping_set_self]
      by_cases hne : url = ""
      · have h_hit : cache_hit_value s₂ row.short_url = none := by
          simp [cache_hit_value, hup, hcup, hmap, hne]
        have h := redirect_miss_found row.short_url ctx s₂ row h_fmt h_hit h_dbfind
        rw [h.1, hurl]
      · have h := redirect_warm_hit row.short_url ctx s₂ url h_fmt
          (by rw [hup, hcup]) hmap hne
        rw [h]
  · have h_hit : cache_hit_value (evict_mapping row.short_url s₂) row.short_url = none := by
      unfold cache_hit_value evict_mapping redis_get_mapping
      cases hcup2 : s₂.cacheUp <;> simp [assoc_get_filter_ne]
    have h_dbfind2 :
        db_find (evict_mapping row.short_url s₂).db row.short_url = some row := by
      simpa [evict_mapping] using h_dbfind
    have h := redirect_miss_found row.short_url ctx (evict_mapping row.short_url s₂)
      row h_fmt h_hit h_dbfind2
    rw [h.1, hurl]

/-- C1 witness: the round trip at a concrete input. -/
theorem create_then_resolve_roundtrip_witness :
    (redirect_to_long_url c2_row.short_url ctx0 c2_sys).1 =
      ResolveResult.redirect "http://x" ∧
    (redirect_to_long_url c2_row.short_url ctx0
        (evict_mapping c2_row.short_url c2_sys)).1 =
      ResolveResult.redirect "http://x" :=
  create_then_resolve_roundtrip "http://x" ["abc123"] empty_sys ctx0 c2_row c2_sys
    (by decide) (by decide)

/-- Iterating the resolver on a warm cache entry: the store is untouched, the
mapping entry survives, and the counter entry grows by one per call. -/
theorem resolve_iter_warm (code : String) (ctx : ClientCtx) (url : String)
    (h_fmt : valid_code_format code = true) (h_ne : url ≠ "") :
    ∀ (n : Nat) (st : Sys) (k : Nat),
      st.cacheUp = true →
      redis_get_mapping st.cache code = some url →
      redis_get_counter st.cache code = some k →
      (resolve_iter code ctx n st).db = st.db ∧
      (resolve_iter code ctx n st).cacheUp = true ∧
      redis_get_mapping (resolve_iter code ctx n st).cache code = some url ∧
      redis_get_counter (resolve_iter code ctx n st).cache code = some (k + n) := by
  intro n
  induction n with
  | zero => intro st k h1 h2 h3; exact ⟨rfl, h1, h2, h3⟩
  | succ m ih =>
    intro st k h1 h2 h3
    have hstep := redirect_warm_hit code ctx st url h_fmt h1 h2 h_ne
    have hiter : resolve_iter code ctx (m + 1) st =
        resolve_iter code ctx m (redirect_to_long_url code ctx st).2.1 := rfl
    rw [hiter, hstep]
    have h2' : redis_get_mapping (redis_incr_counter st.cache code) code = some url := by
      rw [get_mapping_incr]; exact h2
    have h3' : redis_get_counter (redis_incr_counter st.cache code) code =
        some (k + 1) := get_counter_incr_self st.cache code k h3
    obtain ⟨d1, d2, d3, d4⟩ := ih
      { st with cache := redis_incr_counter st.cache code,
                tasks := st.tasks ++
                  [⟨code, ctx.xff_ip, ctx.user_agent, ctx.referrer,
                    ctx.country, ctx.city⟩] }
      (k + 1) h1 h2' h3'
    refine ⟨d1, d2, d3, ?_⟩
    rw [d4]
    congr 1
    omega

/-- C2: a code created with its cache counter initialized to 0, resolved N
times on a warm cache and then reconciled once, ends with durable visits
exactly N. -/
theorem counter_convergence
    (url : String) (draws : List String) (s : Sys) (ctx : ClientCtx) (N : Nat)
    (row : ShortUrlRow) (s₂ : Sys)
    (h_up : s.cacheUp = true)
    (h_draws : ∀ d, d ∈ draws → valid_code_format d = true)
    (h_ne : url ≠ "")
    (h_ctr0 : redis_get_counter s.cache row.short_url = none)
    (h_create : shorten_url url draws s = some (row, s₂)) :
    db_visits (scheduled_sync (resolve_iter row.short_url ctx N s₂)).db
      row.short_url = some N := by
  obtain ⟨hurl, hv0, hfresh, hmem, hdb, hup, htasks, hcache⟩ :=
    shorten_url_spec url draws s row s₂ h_create
  have h_fmt : valid_code_format row.short_url = true := h_draws _ hmem
  have hup2 : s₂.cacheUp = true := by rw [hup, h_up]
  have hmap : redis_get_mapping s₂.cache row.short_url = some url := by
    rw [hcache]
    simp only [h_up, if_true]
    rw [get_mapping_setnx, get_mapping_set_self]
  have hctr : redis_get_counter s₂.cache row.short_url = some 0 := by
    rw [hcache]
    simp only [h_up, if_true]
    exact get_counter_setnx_absent _ _ _ h_ctr0
  obtain ⟨d1, d2, d3, d4⟩ :=
    resolve_iter_warm row.short_url ctx url h_fmt h_ne N s₂ 0 hup2 hmap hctr
  have h_find :
      db_find (resolve_iter row.short_url ctx N s₂).db row.short_url = some row := by
    rw [d1, hdb]
    unfold db_find
    exact find?_append_fresh _ row (by simp) s.db.short_urls hfresh
  have h_read :
      cache_read_counter (resolve_iter row.short_url ctx N s₂).cache
        (resolve_iter row.short_url ctx N s₂).cacheUp row.short_url =
        CounterRead.val N := by
    simp [cache_read_counter, d2, d4]
  have h := sync_db_visits_val _ _ _ row N h_find h_read
  simpa [scheduled_sync] using h

/-- C2 witness: two warm resolves of a freshly created code followed by one
reconciliation pass leave durable visits 2. -/
theorem counter_convergence_witness :
    db_visits (scheduled_sync (resolve_iter "abc123" ctx0 2 c2_sys)).db "abc123" =
      some 2 :=
  counter_convergence "http://x" ["abc123"] empty_sys ctx0 2 c2_row c2_sys
    rfl (by decide) (by decide) (by decide) (by decide)

/-- C3 counterexample: after one reconciliation pass over a mapping with
durable visits 0 and cache counter 5, the durable value is overwritten to 5
but the counter cache entry is still present with value 5 — it is neither
cleared nor reset to 0, contrary to the claim. -/
theorem sync_never_clears_counter_counterexample :
    db_visits (scheduled_sync c3_sys).db "abc123" = some 5 ∧
    redis_get_counter (scheduled_sync c3_sys).cache "abc123" = some 5 ∧
    redis_get_counter (scheduled_sync c3_sys).cache "abc123" ≠ none ∧
    redis_get_counter (scheduled_sync c3_sys).cache "abc123" ≠ some 0 := by
  refine ⟨by decide, by decide, by decide, by decide⟩

/-- C3 amended: for every mapping whose cache counter is present and differs
from the durable visits, one Reconciliation Job run overwrites the durable
visits with the cache counter value, but it never clears or resets the
counter cache entry — the job leaves the whole cache untouched. -/
theorem sync_overwrites_but_never_clears
    (s : Sys) (code : String) (r : ShortUrlRow) (n : Nat)
    (h_up : s.cacheUp = true)
    (h_find : db_find s.db code = some r)
    (h_ctr : redis_get_counter s.cache code = some n)
    (_h_ne : r.visits ≠ n) :
    db_visits (scheduled_sync s).db code = some n ∧
    (scheduled_sync s).cache = s.cache := by
  have h_read : cache_read_counter s.cache s.cacheUp code = CounterRead.val n := by
    simp [cache_read_counter, h_up, h_ctr]
  exact ⟨by simpa [scheduled_sync] using
    sync_db_visits_val _ _ _ r n h_find h_read, rfl⟩

/-- C3 amended witness: the pass at the concrete state. -/
theorem sync_overwrites_but_never_clears_witness :
    db_visits (scheduled_sync c3_sys).db "abc123" = some 5 ∧
    (scheduled_sync c3_sys).cache = c3_sys.cache :=
  sync_overwrites_but_never_clears c3_sys "abc123"
    ⟨1, "abc123", "http://x", none, 0⟩ 5 rfl (by decide) (by decide) (by decide)

/-- C4 counterexample: a cache-miss resolve of a code whose counter cache
entry is present at 10 while durable visits is 3 ends with the counter at 4
(stale durable value 3 written over the present 10, then incremented), not at
11 as set-if-absent semantics would give. -/
theorem resolve_repair_overwrites_counterexample :
    (redirect_to_long_url "abc123" ctx0 c4_sys).1 =
      ResolveResult.redirect "http://x" ∧
    redis_get_counter ((redirect_to_long_url "abc123" ctx0 c4_sys).2.1).cache
      "abc123" = some 4 ∧
    redis_get_counter ((redirect_to_long_url "abc123" ctx0 c4_sys).2.1).cache
      "abc123" ≠ some 11 := by
  refine ⟨by decide, by decide, by decide⟩

/-- C4 amended: on a cache-miss resolve of an existing code the resolver
unconditionally writes the durable visits value over the counter cache entry
(plain `set`, not set-if-absent) and then increments it, so the counter
always ends at durable visits + 1, regardless of any value it held. -/
theorem resolve_miss_overwrites_counter
    (s : Sys) (code : String) (ctx : ClientCtx) (r : ShortUrlRow)
    (h_up : s.cacheUp = true)
    (h_fmt : valid_code_format code = true)
    (h_miss : redis_get_mapping s.cache code = none)
    (h_find : db_find s.db code = some r) :
    redis_get_counter ((redirect_to_long_url code ctx s).2.1).cache code =
      some (r.visits + 1) := by
  have h_hit : cache_hit_value s code = none := by
    simp [cache_hit_value, h_up, h_miss]
  have h := (redirect_miss_found code ctx s r h_fmt h_hit h_find).2
  rw [h]
  simp only [h_up, if_true]
  exact get_counter_incr_self _ _ _ (get_counter_set_self _ _ _)

/-- C4 amended witness: at the concrete state, 3 + 1 = 4 replaces the
present counter 10. -/
theorem resolve_miss_overwrites_counter_witness :
    redis_get_counter ((redirect_to_long_url "abc123" ctx0 c4_sys).2.1).cache
      "abc123" = some 4 :=
  resolve_miss_overwrites_counter c4_sys "abc123" ctx0
    ⟨1, "abc123", "http://x", none, 3⟩ rfl (by decide) (by decide) (by decide)

/-- C5 counterexample: both mappings A (`aaaaaa`, counter 3) and B
(`bbbbbb`, counter 5) need syncing; the single batched durable commit fails,
and B's durable visits stays 0 — a durable-write failure does not leave B's
update intact, because all mappings share one commit. -/
theorem sync_batch_commit_failure_counterexample :
    db_visits (sync_visits_to_db (cache_read_counter c5_cache true) false c5_db)
      "bbbbbb" = some 0 ∧
    db_visits (sync_visits_to_db (cache_read_counter c5_cache true) false c5_db)
      "aaaaaa" = some 0 ∧
    db_visits (sync_visits_to_db (cache_read_counter c5_cache true) false c5_db)
      "bbbbbb" ≠ some 5 := by
  refine ⟨by decide, by decide, by decide⟩

/-- C5 amended: per-mapping failure isolation applies to cache-read
failures: when reading A's counter raises and B's succeeds with a value
differing from its durable visits, the pass updates B's durable visits to the
counter value (in the single batched commit) and leaves A's durable visits
untouched; but when the single batched commit itself fails, the whole pass
rolls back and no mapping's durable state changes (counters are never
touched by the job, so all are retried next pass). -/
theorem sync_partial_failure_isolation
    (db : DB) (cache : Cache) (faults : List String)
    (ca cb : String) (ra rb : ShortUrlRow) (n : Nat)
    (h_fa : faults.contains ca = true)
    (h_fb : faults.contains cb = false)
    (h_finda : db_find db ca = some ra)
    (h_findb : db_find db cb = some rb)
    (h_ctrb : redis_get_counter cache cb = some n)
    (_h_neb : rb.visits ≠ n) :
    db_visits (sync_visits_to_db (cache_read_counter_faulty cache faults) true db)
      cb = some n ∧
    db_visits (sync_visits_to_db (cache_read_counter_faulty cache faults) true db)
      ca = some ra.visits ∧
    sync_visits_to_db (cache_read_counter_faulty cache faults) false db = db := by
  have h_readb : cache_read_counter_faulty cache faults cb = CounterRead.val n := by
    unfold cache_read_counter_faulty
    rw [h_fb, h_ctrb]
    simp
  have h_reada : cache_read_counter_faulty cache faults ca = CounterRead.err := by
    unfold cache_read_counter_faulty
    rw [h_fa]
    simp
  refine ⟨sync_db_visits_val _ _ _ rb n h_findb h_readb, ?_,
    sync_commit_failure _ _⟩
  apply sync_db_visits_fix _ _ _ _ ra h_finda
  have hca : ra.short_url = ca := by simpa using List.find?_some h_finda
  simp [sync_step, hca, h_reada]

/-- C5 amended witness: with A's counter read failing, B is synced to 5 and
A keeps 0; with the commit failing, the store is unchanged. -/
theorem sync_partial_failure_isolation_witness :
    db_visits (sync_visits_to_db (cache_read_counter_faulty c5_cache ["aaaaaa"])
      true c5_db) "bbbbbb" = some 5 ∧
    db_visits (sync_visits_to_db (cache_read_counter_faulty c5_cache ["aaaaaa"])
      true c5_db) "aaaaaa" = some 0 ∧
    sync_visits_to_db (cache_read_counter_faulty c5_cache ["aaaaaa"]) false c5_db =
      c5_db :=
  sync_partial_failure_isolation c5_db c5_cache ["aaaaaa"] "aaaaaa" "bbbbbb"
    ⟨1, "aaaaaa", "http://a", none, 0⟩ ⟨2, "bbbbbb", "http://b", none, 0⟩ 5
    (by decide) (by decide) (by decide) (by decide) (by decide) (by decide)

/-- C6 counterexample: with the store containing `aaaaaa` and every draw
colliding, after 11 draws — beyond the claimed bound of 10 retries — the
generator has neither produced a code nor failed with a GenerationExhausted
error (no such error exists): it is still looping. -/
theorem generator_unbounded_retry_counterexample :
    short_url_generator c6_db (List.replicate 11 "aaaaaa") = none ∧
    short_url_generator c6_db (List.replicate 100 "aaaaaa") = none := by
  refine ⟨by decide, by decide⟩

/-- C6 amended: the generator redraws with no retry cap and no
GenerationExhausted error: any code it returns is one of the draws and fresh
against the store, and when every drawn candidate collides it has produced
nothing after any number of draws — it loops without bound. -/
theorem generator_fresh_or_still_looping
    (db : DB) (draws : List String) :
    (∀ c, short_url_generator db draws = some c →
       c ∈ draws ∧ code_exists db c = false) ∧
    ((∀ d ∈ draws, code_exists db d = true) →
       short_url_generator db draws = none) :=
  ⟨fun c h => short_url_generator_spec db draws c h,
   short_url_generator_all_collide db draws⟩

/-- C6 amended witness: a fresh draw is returned and found fresh; an
all-colliding draw list produces nothing. -/
theorem generator_fresh_or_still_looping_witness :
    ("bbbbbb" ∈ ["bbbbbb"] ∧ code_exists c6_db "bbbbbb" = false) ∧
    short_url_generator c6_db ["aaaaaa"] = none :=
  ⟨(generator_fresh_or_still_looping c6_db ["bbbbbb"]).1 "bbbbbb" (by decide),
   (generator_fresh_or_still_looping c6_db ["aaaaaa"]).2 (by decide)⟩

/-- C7 counterexample: `"not a url"` is not a syntactically valid absolute
URL, yet `create` succeeds and persists a mapping carrying it — no
InvalidFormat rejection happens on the create path. -/
theorem create_no_url_validation_counterexample :
    spec_valid_absolute_url "not a url" = false ∧
    shorten_url "not a url" ["abc123"] empty_sys = some (c7_row, c7_sys) ∧
    db_find c7_sys.db "abc123" = some c7_row := by
  refine ⟨by decide, by decide, by decide⟩

/-- C7 amended: `create` performs no URL validation at all: every input
string, valid or not, is accepted verbatim as the long URL and the mapping is
persisted to the Durable Store. -/
theorem create_accepts_any_string
    (url : String) (draws : List String) (s : Sys)
    (row : ShortUrlRow) (s₂ : Sys)
    (h : shorten_url url draws s = some (row, s₂)) :
    row.long_url = url ∧ db_find s₂.db row.short_url = some row := by
  obtain ⟨hurl, hv0, hfresh, hmem, hdb, hup, htasks, hcache⟩ :=
    shorten_url_spec url draws s row s₂ h
  refine ⟨hurl, ?_⟩
  rw [hdb]
  unfold db_find
  exact find?_append_fresh _ row (by simp) s.db.short_urls hfresh

/-- C7 amended witness: the invalid string is persisted. -/
theorem create_accepts_any_string_witness :
    c7_row.long_url = "not a url" ∧
    db_find c7_sys.db c7_row.short_url = some c7_row :=
  create_accepts_any_string "not a url" ["abc123"] empty_sys c7_row c7_sys
    (by decide)

/-- C8: a code failing the 6-character alphanumeric check makes `resolve`
fail with InvalidFormat, with the whole system state unchanged and an empty
trace of cache and store operations. -/
theorem resolve_invalid_format_untouched
    (code : String) (ctx : ClientCtx) (s : Sys)
    (h : valid_code_format code = false) :
    redirect_to_long_url code ctx s = (ResolveResult.invalidFormat, s, []) := by
  simp [redirect_to_long_url, h]

/-- C8 witness: the malformed code of the spec scenario. -/
theorem resolve_invalid_format_untouched_witness :
    redirect_to_long_url "zz9!!!" ctx0 empty_sys =
      (ResolveResult.invalidFormat, empty_sys, []) :=
  resolve_invalid_format_untouched "zz9!!!" ctx0 empty_sys (by decide)

/-- C9: with the cache unavailable, `create` still persists and returns the
mapping without touching the cache, and `resolve` of any existing well-formed
code still redirects to its long URL from the Durable Store alone, also
without touching the cache; neither operation surfaces a cache error. -/
theorem cache_down_end_to_end
    (s : Sys) (url code : String) (draws : List String) (ctx : ClientCtx)
    (row r : ShortUrlRow) (s₂ : Sys)
    (h_down : s.cacheUp = false)
    (h_create : shorten_url url draws s = some (row, s₂))
    (h_find : db_find s.db code = some r)
    (h_fmt : valid_code_format code = true) :
    (row.long_url = url ∧ db_find s₂.db row.short_url = some row ∧
     s₂.cache = s.cache) ∧
    ((redirect_to_long_url code ctx s).1 = ResolveResult.redirect r.long_url ∧
     ((redirect_to_long_url code ctx s).2.1).cache = s.cache) := by
  obtain ⟨hurl, hv0, hfresh, hmem, hdb, hup, htasks, hcache⟩ :=
    shorten_url_spec url draws s row s₂ h_create
  have h1 : db_find s₂.db row.short_url = some row := by
    rw [hdb]
    unfold db_find
    exact find?_append_fresh _ row (by simp) s.db.short_urls hfresh
  have hc : s₂.cache = s.cache := by rw [hcache]; simp [h_down]
  have h_hit : cache_hit_value s code = none := by
    simp [cache_hit_value, h_down]
  have h := redirect_miss_found code ctx s r h_fmt h_hit h_find
  refine ⟨⟨hurl, h1, hc⟩, h.1, ?_⟩
  rw [h.2]
  simp [h_down]

/-- C9 witness: create and resolve against a store with the cache down. -/
theorem cache_down_end_to_end_witness :
    (c9_row.long_url = "http://c" ∧
     db_find c9_sys2.db c9_row.short_url = some c9_row ∧
     c9_sys2.cache = c9_sys.cache) ∧
    ((redirect_to_long_url "dddddd" ctx0 c9_sys).1 =
       ResolveResult.redirect "http://d" ∧
     ((redirect_to_long_url "dddddd" ctx0 c9_sys).2.1).cache = c9_sys.cache) :=
  cache_down_end_to_end c9_sys "http://c" "dddddd" ["cccccc"] ctx0 c9_row
    ⟨1, "dddddd", "http://d", none, 2⟩ c9_sys2 rfl (by decide) (by decide)
    (by decide)

/-- C10: background visit recording: when the code exists, its durable visits
is incremented by exactly one, exactly one VisitEvent row referencing it is
appended (both in the same returned store, i.e. the same commit), and every
other mapping's visits is unchanged; when the code does not exist, the store
is returned entirely unchanged, silently. -/
theorem update_visit_in_db_spec
    (code ip ua ref : String) (country city : Option String) (db : DB) :
    (∀ r, db_find db code = some r →
       db_visits (update_visit_in_db code ip ua ref country city db) code =
         some (r.visits + 1) ∧
       (update_visit_in_db code ip ua ref country city db).visit_rows =
         db.visit_rows ++ [⟨r.id, ip, ua, ref, country, city⟩] ∧
       (∀ c2, c2 ≠ code →
          db_visits (update_visit_in_db code ip ua ref country city db) c2 =
            db_visits db c2)) ∧
    (db_find db code = none →
       update_visit_in_db code ip ua ref country city db = db) := by
  constructor
  · intro r hr
    refine ⟨?_, ?_, ?_⟩
    · simp only [update_visit_in_db, hr]
      unfold db_visits db_find
      rw [find?_replace_first_self (fun q => q.short_url == code)
        (fun q => { q with visits := q.visits + 1 }) (fun a => rfl) db.short_urls]
      unfold db_find at hr
      rw [hr]
      simp
    · simp only [update_visit_in_db, hr]
    · intro c2 hc2
      have hpq : ∀ a : ShortUrlRow,
          (a.short_url == code) = true → (a.short_url == c2) = false := by
        intro a ha
        have hac : a.short_url = code := by simpa using ha
        simp only [hac, beq_eq_false_iff_ne]
        exact fun hcc => hc2 hcc.symm
      simp only [update_visit_in_db, hr]
      unfold db_visits db_find
      rw [find?_replace_first_other (fun q => q.short_url == code)
        (fun q => q.short_url == c2) (fun q => { q with visits := q.visits + 1 })
        hpq (fun a => rfl) db.short_urls]
  · intro h
    simp only [update_visit_in_db, h]

/-- C10 witness: recording a visit for an existing code at a concrete store. -/
theorem update_visit_in_db_spec_witness :
    db_visits (update_visit_in_db "abc123" "1.2.3.4" "agent" "referrer"
      none none c10_db) "abc123" = some 5 ∧
    (update_visit_in_db "abc123" "1.2.3.4" "agent" "referrer"
      none none c10_db).visit_rows =
      c10_db.visit_rows ++ [⟨7, "1.2.3.4", "agent", "referrer", none, none⟩] := by
  have h := (update_visit_in_db_spec "abc123" "1.2.3.4" "agent" "referrer"
    none none c10_db).1 ⟨7, "abc123", "http://x", none, 4⟩ (by decide)
  exact ⟨h.1, h.2.1⟩

end Surls
